import Mathlib

/-
Verification development for the relay-control repository (src/app.py).

The actuation engine `trigger_relay` (app.py:365-416), the HTTP dispatch
entry point `control_relay` (app.py:431-453), the polling button handler
`ButtonHandler._poll_button` (app.py:231-264), the polarity helpers
(app.py:391, 402, 473) and the configuration update path
`Config.update_config` / `Config.save_config` (app.py:98-116) are embedded
shallowly below.  Concurrency is modelled as a small-step transition system:
every region that is atomic in the Python source (a `with active_triggers_lock`
block, a non-blocking `Lock.acquire`, a `Lock.release`, a single GPIO write)
is one atomic step, and a schedule is a list of thread indices.

Python `threading.Lock` semantics modelled exactly: `acquire(blocking=False)`
fails if and only if the lock is held; `release()` succeeds from ANY thread if
the lock is currently held (it does not check ownership), and raises
RuntimeError when the lock is not held, in which case the remainder of the
`finally` block is skipped and the thread dies with the exception.
-/

namespace RelayControl

/-- Physical level written for logical ON (app.py:391):
`on_state = GPIO.LOW if config.RELAY_ACTIVE_LOW else GPIO.HIGH`,
with `false` = LOW, `true` = HIGH. -/
def onLevel (active_low : Bool) : Bool :=
  if active_low then false else true

/-- Physical level written for logical OFF (app.py:336, 402):
`off_state = GPIO.HIGH if config.RELAY_ACTIVE_LOW else GPIO.LOW`. -/
def offLevel (active_low : Bool) : Bool :=
  if active_low then true else false

/-- The Output Line write: driving a logical level picks the
polarity-corrected physical level (app.py:391-392, 402-403). -/
def setLevel (active_low : Bool) (logical_on : Bool) : Bool :=
  if logical_on then onLevel active_low else offLevel active_low

/-- The Output Line read-back (app.py:473):
`is_on = (curr == GPIO.LOW) if config.RELAY_ACTIVE_LOW else (curr == GPIO.HIGH)`. -/
def readIsOn (active_low : Bool) (lvl : Bool) : Bool :=
  if active_low then lvl == false else lvl == true

/-- The configuration slice that the actuation engine reads
(Config.RELAY_PINS, RELAY_ACTIVE_LOW, RELAY_TRIGGER_DURATIONS,
MAX_CONCURRENT_TRIGGERS, app.py:118-136). -/
structure AppConfig where
  relay_pins : List (Nat × Nat)
  active_low : Bool
  trigger_durations : List (Nat × ℚ)
  max_concurrent_triggers : Nat
deriving DecidableEq, Repr

/-- Default `relay_pins` map (app.py:28-31). -/
def defaultPins : List (Nat × Nat) :=
  [(1, 17), (2, 18), (3, 27), (4, 22), (5, 23), (6, 24), (7, 25), (8, 4)]

/-- Default `trigger_durations` map (app.py:38-41). -/
def defaultDurations : List (Nat × ℚ) :=
  [(1, 1/2), (2, 1/2), (3, 1/2), (4, 1/2), (5, 1/2), (6, 1/2), (7, 1/2), (8, 1/2)]

/-- Default configuration (app.py:27-43): active_low true, ceiling 3. -/
def defaultCfg : AppConfig :=
  { relay_pins := defaultPins, active_low := true,
    trigger_durations := defaultDurations, max_concurrent_triggers := 3 }

/-- Duration used by the actuation engine (app.py:388):
`duration = config.RELAY_TRIGGER_DURATIONS.get(relay_num, 0.5)`. -/
def trigger_duration (cfg : AppConfig) (r : Nat) : ℚ :=
  (cfg.trigger_durations.lookup r).getD (1/2)

/-- Duration reported by the dispatch endpoint (app.py:452):
`duration = config.RELAY_TRIGGER_DURATIONS.get(relay_num, 0.5)`. -/
def control_duration (cfg : AppConfig) (r : Nat) : ℚ :=
  (cfg.trigger_durations.lookup r).getD (1/2)

/-- Fault injection point for a single actuation: the Python `except` clause
(app.py:408-411) catches any exception raised between the guard acquisition
and the `return True`; we distinguish where it is raised. -/
inductive Fault
  | noFault
  | onWrite
  | duringSleep
  | offWrite
deriving DecidableEq, BEq, Repr

/-- Program counter of one in-flight `trigger_relay` call, one constructor
per atomic region of app.py:365-416. -/
inductive PC
  /-- about to run the membership test `relay_num not in config.RELAY_PINS` (369) -/
  | start
  /-- about to run the atomic admission block `with active_triggers_lock` (374-378) -/
  | preAdm
  /-- counter incremented; about to run `relay_locks[n].acquire(blocking=False)` (381) -/
  | preB
  /-- guard acquire failed; about to run the rejection decrement (383-384) -/
  | rejC
  /-- rejection decrement done; `return False` routes through `finally`:
      about to run `relay_locks[n].release()` (414) -/
  | rejD
  /-- that release succeeded; about to run the finally decrement (415-416) -/
  | rejE
  /-- guard acquired; about to run the ON write `GPIO.output(pin, on_state)` (392) -/
  | turnOn
  /-- ON written; inside `time.sleep(duration)` (399) -/
  | sleeping
  /-- sleep finished; about to run the OFF write `GPIO.output(pin, off_state)` (403) -/
  | turnOff
  /-- about to run `relay_locks[n].release()` in `finally` (414);
      `ok` records the pending return value (true: normal path, false: except path) -/
  | finD (ok : Bool)
  /-- release succeeded; about to run the finally decrement (415-416) -/
  | finE (ok : Bool)
  /-- call finished; `some b` = returned b, `none` = thread died with an
      unhandled RuntimeError raised by `release()` of an unheld lock -/
  | done (res : Option Bool)
deriving DecidableEq, BEq, Repr

/-- One in-flight `trigger_relay` invocation. -/
structure Thread where
  relay : Nat
  fault : Fault
  pc : PC
deriving DecidableEq, BEq, Repr

/-- Pointwise update of the physical pin levels. -/
def setPin (f : Nat → Bool) (p : Nat) (v : Bool) : Nat → Bool :=
  fun x => if x = p then v else f x

/-- Process state: the module-level `active_triggers` counter (278), the set
of currently held `relay_locks` (277), the physical pin levels, and the
in-flight `trigger_relay` threads. -/
structure SysState where
  counter : Int
  locked : Finset Nat
  pins : Nat → Bool
  threads : List Thread

/-- Execute the next atomic region of one `trigger_relay` invocation
(app.py:365-416).  Returns the updated shared state (threads field unused)
and the updated thread. -/
def stepThread (cfg : AppConfig) (s : SysState) (t : Thread) : SysState × Thread :=
  match t.pc with
  | .start =>
      match cfg.relay_pins.lookup t.relay with
      | Option.none => (s, { t with pc := .done (some false) })
      | some _ => (s, { t with pc := .preAdm })
  | .preAdm =>
      if s.counter ≥ (cfg.max_concurrent_triggers : Int) then
        (s, { t with pc := .done (some false) })
      else
        ({ s with counter := s.counter + 1 }, { t with pc := .preB })
  | .preB =>
      if t.relay ∈ s.locked then
        (s, { t with pc := .rejC })
      else
        ({ s with locked := insert t.relay s.locked }, { t with pc := .turnOn })
  | .rejC =>
      ({ s with counter := s.counter - 1 }, { t with pc := .rejD })
  | .rejD =>
      if t.relay ∈ s.locked then
        ({ s with locked := s.locked.erase t.relay }, { t with pc := .rejE })
      else
        (s, { t with pc := .done Option.none })
  | .rejE =>
      ({ s with counter := s.counter - 1 }, { t with pc := .done (some false) })
  | .turnOn =>
      match t.fault with
      | .onWrite => (s, { t with pc := .finD false })
      | _ =>
          match cfg.relay_pins.lookup t.relay with
          | Option.none => (s, { t with pc := .finD false })
          | some pin =>
              ({ s with pins := setPin s.pins pin (onLevel cfg.active_low) },
               { t with pc := .sleeping })
  | .sleeping =>
      match t.fault with
      | .duringSleep => (s, { t with pc := .finD false })
      | _ => (s, { t with pc := .turnOff })
  | .turnOff =>
      match t.fault with
      | .offWrite => (s, { t with pc := .finD false })
      | _ =>
          match cfg.relay_pins.lookup t.relay with
          | Option.none => (s, { t with pc := .finD false })
          | some pin =>
              ({ s with pins := setPin s.pins pin (offLevel cfg.active_low) },
               { t with pc := .finD true })
  | .finD ok =>
      if t.relay ∈ s.locked then
        ({ s with locked := s.locked.erase t.relay }, { t with pc := .finE ok })
      else
        (s, { t with pc := .done Option.none })
  | .finE ok =>
      ({ s with counter := s.counter - 1 }, { t with pc := .done (some ok) })
  | .done _ => (s, t)

/-- Run one atomic step of the thread at index `i`; out-of-range or finished
threads are no-ops. -/
def step (cfg : AppConfig) (s : SysState) (i : Nat) : SysState :=
  match s.threads[i]? with
  | Option.none => s
  | some t =>
      let r := stepThread cfg s t
      { r.1 with threads := s.threads.set i r.2 }

/-- Run a schedule: a list of thread indices, executed left to right. -/
def run (cfg : AppConfig) (s : SysState) (sched : List Nat) : SysState :=
  sched.foldl (step cfg) s

/-- A fresh `trigger_relay` invocation for relay `rf.1` with fault mode `rf.2`. -/
def initThread (rf : Nat × Fault) : Thread :=
  { relay := rf.1, fault := rf.2, pc := .start }

/-- Initial process state after `setup_gpio` (app.py:325-338): counter 0,
no lock held, every pin driven to the OFF level. -/
def initState (cfg : AppConfig) (rfs : List (Nat × Fault)) : SysState :=
  { counter := 0, locked := ∅,
    pins := fun _ => offLevel cfg.active_low,
    threads := rfs.map initThread }

/-- Result of the dispatch endpoint `control_relay` (app.py:431-453). -/
inductive DispatchResult
  /-- 400 `Invalid relay number` (436) -/
  | invalidRelay
  /-- 429 `Relay is already active` (442) -/
  | alreadyActive
  /-- 200 success with the reported duration (453) -/
  | accepted (duration : ℚ)
  /-- unhandled exception in the handler (KeyError on `relay_locks[relay_num]`),
      surfaced as a 500 internal error -/
  | serverError
deriving DecidableEq, BEq, Repr

/-- The dispatch entry point `control_relay` (app.py:431-453): range check
against `len(config.RELAY_PINS)` (434), then `relay_locks[relay_num]` lookup
(441, KeyError when absent), then the `.locked()` fast-fail, then the
accepted response carrying the line-452 duration.  `lockKeys` is the key set
of `relay_locks`, built at startup (338); `locked` is the set of currently
held guards.  The function performs no GPIO I/O and never reads the
admission counter. -/
def control_relay (cfg : AppConfig) (lockKeys : List Nat) (locked : Finset Nat)
    (relay_num : Nat) : DispatchResult :=
  if relay_num < 1 ∨ cfg.relay_pins.length < relay_num then .invalidRelay
  else if relay_num ∈ lockKeys then
    if relay_num ∈ locked then .alreadyActive
    else .accepted (control_duration cfg relay_num)
  else .serverError

/-- Dispatch against a live process state. -/
def dispatch (cfg : AppConfig) (s : SysState) (relay_num : Nat) : DispatchResult :=
  control_relay cfg (cfg.relay_pins.map Prod.fst) s.locked relay_num

/-- State of the polling button loop `_poll_button` (app.py:231-264):
`last_state` (258), `last_press_time` (246), and the number of trigger
threads dispatched so far (250-256). -/
structure BtnState where
  last_state : Nat
  last_press_time : ℚ
  dispatches : Nat
deriving DecidableEq, Repr

/-- Press-transition detection (app.py:238-241): HIGH→LOW for pull-up,
LOW→HIGH otherwise. -/
def pressedTransition (pull_up : Bool) (lastS cur : Nat) : Bool :=
  if pull_up then lastS == 1 && cur == 0 else lastS == 0 && cur == 1

/-- One iteration of the polling loop (app.py:233-258) on a sample
`(time, level)`: on a press transition the dispatch fires if and only if
`current_time - last_press_time >= debounce_time` (245), in which case
`last_press_time` is updated (246); `last_state` is always updated (258). -/
def pollStep (pull_up : Bool) (debounce : ℚ) (st : BtnState) (sample : ℚ × Nat) : BtnState :=
  if pressedTransition pull_up st.last_state sample.2 then
    if sample.1 - st.last_press_time ≥ debounce then
      { last_state := sample.2, last_press_time := sample.1,
        dispatches := st.dispatches + 1 }
    else
      { st with last_state := sample.2 }
  else
    { st with last_state := sample.2 }

/-- The polling loop over a finite sample trace. -/
def pollRun (pull_up : Bool) (debounce : ℚ) (st : BtnState)
    (samples : List (ℚ × Nat)) : BtnState :=
  samples.foldl (pollStep pull_up debounce) st

/-- Python dict assignment `base[k] = v` on an association list with unique
keys (first occurrence replaced, otherwise appended). -/
def dictSet : List (Nat × Nat) → Nat → Nat → List (Nat × Nat)
  | [], k, v => [(k, v)]
  | kv :: rest, k, v =>
      if kv.1 = k then (k, v) :: rest else kv :: dictSet rest k v

/-- `Config._deep_update` (app.py:90-96) restricted to the flat
`relay_pins` section: every submitted key overwrites or extends the base map. -/
def jsonUpdate (base : List (Nat × Nat)) (updates : List (Nat × Nat)) : List (Nat × Nat) :=
  updates.foldl (fun b kv => dictSet b kv.1 kv.2) base

/-- `Config.update_config("relay_pins", updates)` (app.py:108-116) followed by
`save_config` (98-106): the section exists, so the update is deep-merged and
written to disk unconditionally; no validation of any kind is performed.
The file write is modelled as succeeding (save_config returns False only on
an I/O exception).  Returns the persisted map and the reported result. -/
def update_config_relay_pins (pins : List (Nat × Nat)) (updates : List (Nat × Nat)) :
    List (Nat × Nat) × Bool :=
  (jsonUpdate pins updates, true)

/-- Two relays share a physical line identifier. -/
def DupLine (pins : List (Nat × Nat)) : Prop :=
  ¬ (pins.map Prod.snd).Nodup

instance (pins : List (Nat × Nat)) : Decidable (DupLine pins) := by
  unfold DupLine; infer_instance

/-- Accounting weight of a program counter: 1 for the stages that hold an
admission-counter slot not yet represented by a held lock (incremented but
not yet acquired; pending rejection decrement; pending finally decrement
after a successful release), 0 otherwise. -/
def weight (p : PC) : Int :=
  match p with
  | .preB => 1
  | .rejC => 1
  | .rejE => 1
  | .finE _ => 1
  | _ => 0

theorem weight_nonneg (p : PC) : 0 ≤ weight p := by
  cases p <;> simp [weight]

/-- Total accounting weight of the in-flight threads. -/
def threadSum (l : List Thread) : Int :=
  (l.map (fun t => weight t.pc)).sum

theorem threadSum_nonneg (l : List Thread) : 0 ≤ threadSum l := by
  induction l with
  | nil => simp [threadSum]
  | cons x xs ih =>
      have hw := weight_nonneg x.pc
      simp only [threadSum, List.map_cons, List.sum_cons] at ih ⊢
      omega

theorem threadSum_set (l : List Thread) (i : Nat) (t u : Thread)
    (h : l[i]? = some t) :
    threadSum (l.set i u) = threadSum l - weight t.pc + weight u.pc := by
  induction l generalizing i with
  | nil => simp at h
  | cons x xs ih =>
      cases i with
      | zero =>
          simp only [List.getElem?_cons_zero, Option.some.injEq] at h
          subst h
          simp only [List.set_cons_zero, threadSum, List.map_cons, List.sum_cons]
          ring
      | succ n =>
          simp only [List.getElem?_cons_succ] at h
          simp only [List.set_cons_succ, threadSum, List.map_cons, List.sum_cons]
          have := ih n h
          simp only [threadSum] at this
          omega

/-- The strengthened inductive invariant: the admission counter dominates the
number of held locks plus the accounting weight of the in-flight threads,
and never exceeds the ceiling. -/
def Inv (cfg : AppConfig) (s : SysState) : Prop :=
  threadSum s.threads + (s.locked.card : Int) ≤ s.counter ∧
  s.counter ≤ (cfg.max_concurrent_triggers : Int)

theorem initState_inv (cfg : AppConfig) (rfs : List (Nat × Fault)) :
    Inv cfg (initState cfg rfs) := by
  have hz : threadSum (rfs.map initThread) = 0 := by
    induction rfs with
    | nil => rfl
    | cons x xs ih =>
        show threadSum (initThread x :: xs.map initThread) = 0
        simp only [threadSum, List.map_cons, List.sum_cons] at ih ⊢
        have hw : weight (initThread x).pc = 0 := rfl
        omega
  constructor
  · show threadSum (rfs.map initThread) + ((∅ : Finset Nat).card : Int) ≤ 0
    simp [hz]
  · show (0 : Int) ≤ (cfg.max_concurrent_triggers : Int)
    positivity

theorem stepThread_threads (cfg : AppConfig) (s : SysState) (t : Thread) :
    (stepThread cfg s t).1.threads = s.threads := by
  obtain ⟨rl, f, p⟩ := t
  cases p <;> cases f <;> simp only [stepThread] <;>
    first
      | rfl
      | (split <;> rfl)

theorem stepThread_ceiling (cfg : AppConfig) (s : SysState) (t : Thread)
    (h : s.counter ≤ (cfg.max_concurrent_triggers : Int)) :
    (stepThread cfg s t).1.counter ≤ (cfg.max_concurrent_triggers : Int) := by
  obtain ⟨rl, f, p⟩ := t
  cases p <;> cases f <;> simp only [stepThread] <;>
    first
      | exact h
      | (show s.counter - 1 ≤ _; omega)
      | (cases cfg.relay_pins.lookup rl <;> exact h)
      | (split
         · exact h
         · first
             | exact h
             | (show s.counter + 1 ≤ _
                rename_i hc
                simp only [ge_iff_le, not_le] at hc
                omega))

theorem stepThread_slack (cfg : AppConfig) (s : SysState) (t : Thread) :
    s.counter - (weight t.pc + (s.locked.card : Int)) ≤
      (stepThread cfg s t).1.counter -
        (weight (stepThread cfg s t).2.pc + ((stepThread cfg s t).1.locked.card : Int)) := by
  obtain ⟨rl, f, p⟩ := t
  cases p
  case start =>
      simp only [stepThread]
      split <;> simp only [weight] <;> omega
  case preAdm =>
      simp only [stepThread]
      split <;> simp only [weight] <;> omega
  case preB =>
      simp only [stepThread]
      split
      case isTrue hc => simp only [weight]; omega
      case isFalse hc =>
          have hcard : (insert rl s.locked).card = s.locked.card + 1 :=
            Finset.card_insert_of_not_mem hc
          simp only [weight, hcard]
          push_cast
          omega
  case rejC => simp only [stepThread, weight]; omega
  case rejD =>
      simp only [stepThread]
      split
      case isTrue hc =>
          have hpos : 0 < s.locked.card := Finset.card_pos.mpr ⟨rl, hc⟩
          have hcard : (s.locked.erase rl).card = s.locked.card - 1 :=
            Finset.card_erase_of_mem hc
          simp only [weight, hcard]
          omega
      case isFalse hc => simp only [weight]; omega
  case rejE => simp only [stepThread, weight]; omega
  case turnOn =>
      cases f <;> simp only [stepThread] <;>
        first
          | (simp only [weight]; omega)
          | (split <;> simp only [weight] <;> omega)
  case sleeping =>
      cases f <;> simp only [stepThread, weight] <;> omega
  case turnOff =>
      cases f <;> simp only [stepThread] <;>
        first
          | (simp only [weight]; omega)
          | (split <;> simp only [weight] <;> omega)
  case finD =>
      simp only [stepThread]
      split
      case isTrue hc =>
          have hpos : 0 < s.locked.card := Finset.card_pos.mpr ⟨rl, hc⟩
          have hcard : (s.locked.erase rl).card = s.locked.card - 1 :=
            Finset.card_erase_of_mem hc
          simp only [weight, hcard]
          omega
      case isFalse hc => simp only [weight]; omega
  case finE => simp only [stepThread, weight]; omega
  case done => simp only [stepThread, weight]; omega

theorem step_inv (cfg : AppConfig) (s : SysState) (i : Nat) (h : Inv cfg s) :
    Inv cfg (step cfg s i) := by
  obtain ⟨h1, h2⟩ := h
  unfold step
  cases hm : s.threads[i]? with
  | none => exact ⟨h1, h2⟩
  | some t =>
      have hslack := stepThread_slack cfg s t
      have hceil := stepThread_ceiling cfg s t h2
      have hset := threadSum_set s.threads i t (stepThread cfg s t).2 hm
      exact ⟨by dsimp only; rw [hset]; omega, by dsimp only; exact hceil⟩

theorem run_inv (cfg : AppConfig) (s : SysState) (sched : List Nat)
    (h : Inv cfg s) : Inv cfg (run cfg s sched) := by
  induction sched generalizing s with
  | nil => exact h
  | cons i rest ih =>
      simp only [run, List.foldl_cons] at ih ⊢
      exact ih (step cfg s i) (step_inv cfg s i h)

theorem lookup_dictSet_self (b : List (Nat × Nat)) (k v : Nat) :
    (dictSet b k v).lookup k = some v := by
  induction b with
  | nil => simp [dictSet, List.lookup]
  | cons kv rest ih =>
      obtain ⟨k1, v1⟩ := kv
      by_cases hk : k1 = k
      · simp [dictSet, hk, List.lookup]
      · simp only [dictSet, hk, if_false, List.lookup]
        have : (k == k1) = false := by
          simp [Ne.symm hk]
        simp [this, ih]

theorem lookup_dictSet_ne (b : List (Nat × Nat)) (k v k2 : Nat) (h : k ≠ k2) :
    (dictSet b k v).lookup k2 = b.lookup k2 := by
  have hne : (k2 == k) = false := by simp [Ne.symm h]
  induction b with
  | nil => simp [dictSet, List.lookup, hne]
  | cons kv rest ih =>
      obtain ⟨k1, v1⟩ := kv
      by_cases hk : k1 = k
      · subst hk
        simp [dictSet, List.lookup, hne]
      · simp only [dictSet, hk, if_false, List.lookup]
        cases hkk : (k2 == k1) <;> simp [hkk, ih]

/-- Interleaving witness for C1: two concurrent `trigger_relay(1)` calls.
Thread 0 is admitted (counter 1) and acquires relay 1's guard; thread 1 is
admitted (counter 2), fails the non-blocking acquire, decrements in the
rejection branch (counter 1), then its `finally` releases thread 0's guard
and decrements again (counter 0). -/
def c1_state : SysState :=
  run defaultCfg (initState defaultCfg [(1, .noFault), (1, .noFault)])
    [0, 0, 0, 1, 1, 1, 1, 1, 1]

/-- C1: the claim says a trigger rejected at the guard releases exactly what
it acquired (its admission slot), exactly once.  Evaluating `trigger_relay`
at the failing interleaving shows otherwise: after the rejected thread 1
finishes, the counter is 0 and relay 1's guard is free, although the
admitted thread 0 still holds its slot and is still before its ON write
(pc = turnOn).  Thread 1 decremented the counter twice (once in the
rejection branch, once in `finally`) and released a guard it never
acquired; a single correct release would have left counter = 1 and
relay 1 locked. -/
theorem c1_rejected_trigger_releases_twice :
    c1_state.counter = 0 ∧
    1 ∉ c1_state.locked ∧
    c1_state.threads[0]? = some ⟨1, .noFault, .turnOn⟩ ∧
    c1_state.threads[1]? = some ⟨1, .noFault, .done (some false)⟩ := by
  decide

/-- Number of in-flight actuations of relay `r` currently in the ACTIVE
phase (line driven ON, OFF not yet written). -/
def activeCount (s : SysState) (r : Nat) : Nat :=
  (s.threads.filter
    (fun t => t.relay == r && (t.pc == PC.sleeping || t.pc == PC.turnOff))).length

/-- Interleaving witness for C2: three concurrent `trigger_relay(1)` calls.
Thread 0 goes ACTIVE; thread 1 is rejected at the guard and its `finally`
spuriously releases thread 0's guard; thread 2 then acquires the freed
guard and also goes ACTIVE. -/
def c2_state : SysState :=
  run defaultCfg (initState defaultCfg [(1, .noFault), (1, .noFault), (1, .noFault)])
    [0, 0, 0, 0, 1, 1, 1, 1, 1, 1, 2, 2, 2, 2]

/-- C2: the claim says at most one actuation of a relay is ACTIVE at any
instant.  Evaluating the engine on the failing interleaving produces a
reachable state with TWO simultaneously ACTIVE actuations of relay 1
(threads 0 and 2 both between their ON and OFF writes), because the
rejected thread 1's `finally` released thread 0's guard. -/
theorem c2_two_active_same_relay :
    activeCount c2_state 1 = 2 ∧
    c2_state.threads[0]? = some ⟨1, .noFault, .sleeping⟩ ∧
    c2_state.threads[2]? = some ⟨1, .noFault, .sleeping⟩ := by
  decide

/-- Ten-relay configuration for the C3 burst scenario (ceiling 3). -/
def cfg10 : AppConfig :=
  { relay_pins := defaultPins ++ [(9, 5), (10, 6)], active_low := true,
    trigger_durations := defaultDurations, max_concurrent_triggers := 3 }

/-- Ten concurrent dispatch calls, one per relay. -/
def burstThreads : List (Nat × Fault) :=
  (List.range 10).map (fun i => (i + 1, Fault.noFault))

/-- All ten calls pass the membership test, then all ten run their atomic
admission check before any actuation completes. -/
def burstSched : List Nat :=
  List.range 10 ++ List.range 10

def burstState : SysState :=
  run cfg10 (initState cfg10 burstThreads) burstSched

/-- Dispatch calls that returned False (rejected). -/
def countRejected (s : SysState) : Nat :=
  (s.threads.filter (fun t => t.pc == PC.done (some false))).length

/-- Dispatch calls admitted by the counter (holding a slot, pre-acquire). -/
def countAdmittedPending (s : SysState) : Nat :=
  (s.threads.filter (fun t => t.pc == PC.preB)).length

/-- C3: at every observation point `0 ≤ active_triggers ≤ max_concurrent_triggers`
(every reachable state of any run, any configuration, any interleaving —
every prefix of a schedule is itself a schedule); and in the burst scenario
with ceiling 3 and 10 concurrent dispatch calls, exactly the 7 excess calls
are rejected and the counter ends at 3. -/
theorem c3_counter_within_bounds :
    (∀ (cfg : AppConfig) (rfs : List (Nat × Fault)) (sched : List Nat),
        0 ≤ (run cfg (initState cfg rfs) sched).counter ∧
        (run cfg (initState cfg rfs) sched).counter ≤ (cfg.max_concurrent_triggers : Int)) ∧
    burstState.counter = 3 ∧
    countRejected burstState = 7 ∧
    countAdmittedPending burstState = 3 := by
  refine ⟨?_, by decide, by decide, by decide⟩
  intro cfg rfs sched
  obtain ⟨h1, h2⟩ := run_inv cfg _ sched (initState_inv cfg rfs)
  have hts := threadSum_nonneg (run cfg (initState cfg rfs) sched).threads
  have hcard : (0 : Int) ≤ ((run cfg (initState cfg rfs) sched).locked.card : Int) := by
    positivity
  exact ⟨by omega, h2⟩

/-- Single actuation of relay 1 whose wait phase is interrupted by an error
(the claim's forced fault during the ON phase), run to completion. -/
def c4_cex_state : SysState :=
  run defaultCfg (initState defaultCfg [(1, .duringSleep)]) [0, 0, 0, 0, 0, 0, 0]

/-- C4 counterexample: the claim says the line is driven OFF on every exit
path, including when the wait is interrupted by an error.  Evaluating the
engine with a fault injected after the ON write shows the actuation
completes (thread done, guard released, counter decremented) with pin 17
still at the ON level: the `except`/`finally` code of `trigger_relay`
contains no OFF write. -/
theorem c4_fault_leaves_line_on :
    c4_cex_state.threads[0]? = some ⟨1, .duringSleep, .done (some false)⟩ ∧
    c4_cex_state.pins 17 = onLevel true ∧
    onLevel true ≠ offLevel true ∧
    c4_cex_state.counter = 0 ∧
    c4_cex_state.locked = ∅ := by
  decide

def c4_run (f : Fault) : SysState :=
  run defaultCfg (initState defaultCfg [(1, f)]) [0, 0, 0, 0, 0, 0, 0, 0]

/-- C4 (amended): for every actuation of relay 1 run to completion — with no
fault, or with a fault forced during the ON write, the wait, or the OFF
write — the guard is released and the admission counter decremented (no
leak), but the line is restored to OFF only when the OFF write executes:
a fault during the wait or the OFF write leaves the line ON. -/
theorem c4_guard_and_counter_always_released :
    ∀ f : Fault,
      (c4_run f).counter = 0 ∧
      (c4_run f).locked = ∅ ∧
      (f = .noFault →
        (c4_run f).pins 17 = offLevel true ∧
        (c4_run f).threads[0]? = some ⟨1, f, .done (some true)⟩) ∧
      (f = .onWrite → (c4_run f).pins 17 = offLevel true) ∧
      (f = .duringSleep ∨ f = .offWrite → (c4_run f).pins 17 = onLevel true) := by
  intro f
  cases f <;> decide

theorem c4_guard_and_counter_always_released_witness :
    (c4_run .duringSleep).counter = 0 ∧ (c4_run .duringSleep).locked = ∅ ∧
      (c4_run .duringSleep).pins 17 = onLevel true :=
  ⟨(c4_guard_and_counter_always_released .duringSleep).1,
   (c4_guard_and_counter_always_released .duringSleep).2.1,
   (c4_guard_and_counter_always_released .duringSleep).2.2.2.2 (Or.inl rfl)⟩

/-- A reachable state whose admission counter sits at the ceiling: three
dispatches of relays 2, 3, 4 each pass membership and the atomic admission
check. -/
def c5_at_ceiling : SysState :=
  run defaultCfg (initState defaultCfg [(2, .noFault), (3, .noFault), (4, .noFault)])
    [0, 1, 2, 0, 1, 2]

/-- C5 counterexample: the claim says a dispatch issued while the global
ceiling is reached is reported to the caller as a rejection with reason
capacity_exhausted.  With the counter at the ceiling (3) and relay 1 free,
`control_relay` returns the accepted response with the configured duration:
the handler never consults the admission counter, has no capacity-exhausted
response at all, and the capacity rejection happens only later, invisibly,
in the background thread. -/
theorem c5_capacity_never_reported :
    c5_at_ceiling.counter = (defaultCfg.max_concurrent_triggers : Int) ∧
    dispatch defaultCfg c5_at_ceiling 1 = .accepted (1/2) := by
  refine ⟨by decide, rfl⟩

/-- C5 (amended): the dispatch decision is synchronous and involves no GPIO
I/O, and it can branch on invalid-relay and already-active, but not on
capacity: the response depends only on the guard state (not on the
admission counter), an accepted response always carries the line-452
duration, and an in-range relay with a registered, free guard is always
accepted — even when the counter is at the ceiling. -/
theorem c5_sync_decision_ignores_counter :
    (∀ (cfg : AppConfig) (s1 s2 : SysState) (r : Nat), s1.locked = s2.locked →
        dispatch cfg s1 r = dispatch cfg s2 r) ∧
    (∀ (cfg : AppConfig) (lk : List Nat) (locked : Finset Nat) (r : Nat) (d : ℚ),
        control_relay cfg lk locked r = .accepted d → d = control_duration cfg r) ∧
    (∀ (cfg : AppConfig) (lk : List Nat) (locked : Finset Nat) (r : Nat),
        1 ≤ r → r ≤ cfg.relay_pins.length → r ∈ lk →
        control_relay cfg lk locked r =
          if r ∈ locked then .alreadyActive else .accepted (control_duration cfg r)) := by
  refine ⟨?_, ?_, ?_⟩
  · intro cfg s1 s2 r h
    unfold dispatch
    rw [h]
  · intro cfg lk locked r d h
    unfold control_relay at h
    split_ifs at h
    simp_all
  · intro cfg lk locked r h1 h2 h3
    have hrange : ¬(r < 1 ∨ cfg.relay_pins.length < r) := by omega
    unfold control_relay
    rw [if_neg hrange, if_pos h3]

theorem c5_sync_decision_ignores_counter_witness :
    control_relay defaultCfg (defaultPins.map Prod.fst) ∅ 1 =
      if 1 ∈ (∅ : Finset Nat) then DispatchResult.alreadyActive
      else DispatchResult.accepted (control_duration defaultCfg 1) :=
  c5_sync_decision_ignores_counter.2.2 defaultCfg (defaultPins.map Prod.fst) ∅ 1
    (by decide) (by decide) (by decide)

/-- A submitted relay_pins update in which relays 1 and 2 share line 17. -/
def c6_submitted : List (Nat × Nat) := [(1, 17), (2, 17)]

/-- C6 counterexample: the claim says a submitted configuration with two
relays on the same physical line is rejected before it is persisted.
`update_config` merges and saves it: the operation reports success and the
persisted map has relays 1 and 2 both on line 17. -/
theorem c6_duplicate_lines_persisted :
    (update_config_relay_pins defaultPins c6_submitted).2 = true ∧
    DupLine (update_config_relay_pins defaultPins c6_submitted).1 := by
  decide

/-- C6 (amended): `update_config` performs no duplicate-line validation at
save time (nor anywhere else): any update to the existing relay_pins
section is deep-merged and persisted, and the save reports success, even
when the submitted update maps two distinct relays to the same line. -/
theorem c6_update_config_never_validates (base : List (Nat × Nat)) (r1 r2 p : Nat)
    (h : r1 ≠ r2) :
    (update_config_relay_pins base [(r1, p), (r2, p)]).1.lookup r1 = some p ∧
    (update_config_relay_pins base [(r1, p), (r2, p)]).1.lookup r2 = some p ∧
    (update_config_relay_pins base [(r1, p), (r2, p)]).2 = true := by
  refine ⟨?_, ?_, rfl⟩
  · show (dictSet (dictSet base r1 p) r2 p).lookup r1 = some p
    rw [lookup_dictSet_ne _ _ _ _ (Ne.symm h), lookup_dictSet_self]
  · exact lookup_dictSet_self _ _ _

theorem c6_update_config_never_validates_witness :
    (update_config_relay_pins defaultPins [(1, 17), (2, 17)]).1.lookup 1 = some 17 ∧
    (update_config_relay_pins defaultPins [(1, 17), (2, 17)]).1.lookup 2 = some 17 ∧
    (update_config_relay_pins defaultPins [(1, 17), (2, 17)]).2 = true :=
  c6_update_config_never_validates defaultPins 1 2 17 (by decide)

/-- A reachable configuration (defaults deep-merged with an admin update
adding relay 10 on line 6): the configured relay set is {1..8, 10}, of
size 9, so relay id 9 is outside the configured set yet inside the range
check `1 ≤ id ≤ len(RELAY_PINS)`. -/
def cfgX : AppConfig :=
  { relay_pins := defaultPins ++ [(10, 6)], active_low := true,
    trigger_durations := defaultDurations, max_concurrent_triggers := 3 }

/-- C7 counterexample: the claim says dispatch on every relay id outside the
configured set returns the unknown-relay rejection.  `control_relay`
checks `relay_num < 1 or relay_num > len(config.RELAY_PINS)`, not
membership: for the configured set {1..8, 10} (length 9), id 9 passes the
range check, then `relay_locks[9]` raises KeyError and the request ends in
a 500 server error instead of the invalid-relay rejection. -/
theorem c7_unconfigured_id_not_invalid :
    cfgX.relay_pins.lookup 9 = Option.none ∧
    dispatch cfgX (initState cfgX []) 9 = .serverError ∧
    DispatchResult.serverError ≠ DispatchResult.invalidRelay := by
  decide

/-- C7 (amended): every id outside the range 1..len(relay_pins) is rejected
by dispatch as invalid (with no GPIO access at all, `control_relay` being
I/O-free); and the engine `trigger_relay` rejects every id outside the
configured set at its membership test, returning False and leaving the
counter, the locks and the pins untouched — zero hardware writes. -/
theorem c7_out_of_range_rejected :
    (∀ (cfg : AppConfig) (lk : List Nat) (locked : Finset Nat) (r : Nat),
        (r < 1 ∨ cfg.relay_pins.length < r) →
        control_relay cfg lk locked r = .invalidRelay) ∧
    (∀ (cfg : AppConfig) (s : SysState) (i : Nat) (t : Thread),
        s.threads[i]? = some t → t.pc = .start →
        cfg.relay_pins.lookup t.relay = Option.none →
        step cfg s i =
          { s with threads := s.threads.set i { t with pc := .done (some false) } }) := by
  constructor
  · intro cfg lk locked r h
    unfold control_relay
    rw [if_pos h]
  · intro cfg s i t hm hpc hl
    obtain ⟨rl, f, p⟩ := t
    cases hpc
    simp only [step, hm, stepThread, hl]

theorem c7_out_of_range_rejected_witness :
    control_relay cfgX (cfgX.relay_pins.map Prod.fst) ∅ 0 = DispatchResult.invalidRelay ∧
    step cfgX (initState cfgX [(9, .noFault)]) 0 =
      { initState cfgX [(9, .noFault)] with
          threads := (initState cfgX [(9, .noFault)]).threads.set 0
            ⟨9, .noFault, .done (some false)⟩ } :=
  ⟨c7_out_of_range_rejected.1 cfgX (cfgX.relay_pins.map Prod.fst) ∅ 0 (by decide),
   c7_out_of_range_rejected.2 cfgX (initState cfgX [(9, .noFault)]) 0
     ⟨9, .noFault, .start⟩ (by decide) rfl (by decide)⟩

/-- C8: the polling input source dispatches a detected press if and only if
at least `debounce_time` has elapsed since the last accepted press; with
`debounce_time = 0.3` s, two presses 50 ms apart (at t = 10 and t = 10.05)
produce exactly one dispatch, and two presses 400 ms apart (t = 10 and
t = 10.4) produce exactly two. -/
theorem c8_debounce_iff :
    (∀ (pu : Bool) (d : ℚ) (st : BtnState) (sm : ℚ × Nat),
        ((pollStep pu d st sm).dispatches = st.dispatches + 1 ↔
          pressedTransition pu st.last_state sm.2 = true ∧
            d ≤ sm.1 - st.last_press_time) ∧
        ((pollStep pu d st sm).dispatches = st.dispatches ∨
          (pollStep pu d st sm).dispatches = st.dispatches + 1)) ∧
    (pollRun true (3/10) ⟨1, 0, 0⟩ [(10, 0), (1003/100, 1), (201/20, 0)]).dispatches = 1 ∧
    (pollRun true (3/10) ⟨1, 0, 0⟩ [(10, 0), (51/5, 1), (52/5, 0)]).dispatches = 2 := by
  refine ⟨?_, ?_, ?_⟩
  · intro pu d st sm
    constructor
    · unfold pollStep
      split_ifs with h1 h2 <;> simp_all [ge_iff_le]
    · unfold pollStep
      split_ifs <;> simp
  · norm_num [pollRun, pollStep, pressedTransition]
  · norm_num [pollRun, pollStep, pressedTransition]

/-- C9: for both polarities, driving a relay logically ON and reading the
level back yields logical true — the write-side polarity correction
(app.py:391) and the read-side correction (app.py:473) are self-consistent. -/
theorem c9_polarity_roundtrip :
    ∀ al : Bool, readIsOn al (setLevel al true) = true := by
  decide

theorem c9_polarity_roundtrip_witness :
    readIsOn true (setLevel true true) = true :=
  c9_polarity_roundtrip true

/-- C10: when a relay id is configured in the pin map but missing from the
trigger-durations map, both the engine's ON time (app.py:388) and the
duration field of the accepted dispatch response (app.py:452) fall back to
0.5 seconds. -/
theorem c10_duration_fallback (cfg : AppConfig) (r : Nat)
    (h : cfg.trigger_durations.lookup r = Option.none) :
    trigger_duration cfg r = 1/2 ∧ control_duration cfg r = 1/2 := by
  unfold trigger_duration control_duration
  rw [h]
  exact ⟨rfl, rfl⟩

theorem c10_duration_fallback_witness :
    trigger_duration cfgX 9 = 1/2 ∧ control_duration cfgX 9 = 1/2 :=
  c10_duration_fallback cfgX 9 (by decide)

end RelayControl
